import Mathlib

/-!
# Company Profile Enrichment Pipeline — verification development

Shallow embedding of `backend/app/data_sources/scraper/company_scraper.py`
(class `CompanyScraper`) and the parts of
`backend/app/models/company_profile.py` it depends on.

Modelling conventions:
* Python dict entries that may be absent are `Option` fields; Python
  truthiness of a field value (`if value`, `if not profile_data.get(key)`)
  is modelled by explicit `truthy*` functions (`none`, `some ""`,
  `some []`, `some 0` are falsy).
* The network/extractor outcomes of `_scrape_wikipedia` /
  `_scrape_website_simple` are parameters of type `Except String FieldSet`:
  `.error e` models the call raising an exception whose `str` is `e`,
  `.ok fs` models it returning the dict `fs`.  They are consulted only
  when the corresponding URL argument is present, exactly as in the code.
* `_infer_regulatory_topics_fallback` accumulates topics in a Python
  `set` and returns `list(topics)`; the iteration order of a Python set
  of strings is unspecified, so the embedding canonicalises the output
  list to the insertion order of the `topic_mappings` dict.  All
  properties proved about it are order-insensitive (membership /
  emptiness / the canonical list itself).
* Strings are ASCII in all concrete inputs; `String.toLower`,
  `String.trim`, `Char.isDigit`, `Char.isAlphanum` model the Python
  `str.lower`, `str.strip`, `\d`, `\w` semantics on that fragment.
-/

namespace RegEU

/-- The closed topic vocabulary: the `.value` strings of `RegulatoryTopic`
in `company_profile.py`, in declaration order (this is the order of
`available_topics = [topic.value for topic in RegulatoryTopic]`). -/
def availableTopics : List String :=
  ["AI Act", "BaFin", "Cybersecurity", "GDPR", "AMLR", "ESG"]

/-- The flat field set accumulated by the extractors in `profile_data` /
`wiki_data` / `website_data`.  A `none` field models an absent dict key
(or a key explicitly set to Python `None`, which behaves identically in
every truthiness test the scraper performs). -/
structure FieldSet where
  description : Option String := none
  industry : Option String := none
  founded_year : Option Nat := none
  headquarters : Option String := none
  employee_count : Option String := none
  products_services : Option (List String) := none
  technologies_used : Option (List String) := none
  keywords : Option (List String) := none
  categories : Option (List String) := none
  regulatory_topics : Option (List String) := none
  deriving Repr, DecidableEq

/-- The slice of the `CompanyProfile` pydantic model that
`scrape_company` populates. -/
structure CompanyProfile where
  company_name : String
  website_url : Option String := none
  wikipedia_url : Option String := none
  fields : FieldSet := {}
  source_type : Option String := none
  scrape_status : String := "pending"
  scrape_error : Option String := none
  deriving Repr, DecidableEq

/-- Python truthiness of an optional string dict entry:
absent and `""` are falsy. -/
def truthyStr : Option String → Bool
  | none => false
  | some s => !(s == "")

/-- Python truthiness of an optional list dict entry:
absent and `[]` are falsy. -/
def truthyList : Option (List String) → Bool
  | none => false
  | some l => !l.isEmpty

/-- Python truthiness of an optional int dict entry:
absent and `0` are falsy. -/
def truthyNat : Option Nat → Bool
  | none => false
  | some n => !(n == 0)

/-- One iteration of the merge loop
`if value and not profile_data.get(key): profile_data[key] = value`:
the website value `b` is written only when it is truthy and the
existing value `a` is falsy. -/
def mergeField (truthy : Option α → Bool) (a b : Option α) : Option α :=
  if truthy b && !truthy a then b else a

/-- The whole merge loop `for key, value in website_data.items(): ...`
applied key-wise to every field the extractors can produce. -/
def mergeFieldSet (a b : FieldSet) : FieldSet where
  description := mergeField truthyStr a.description b.description
  industry := mergeField truthyStr a.industry b.industry
  founded_year := mergeField truthyNat a.founded_year b.founded_year
  headquarters := mergeField truthyStr a.headquarters b.headquarters
  employee_count := mergeField truthyStr a.employee_count b.employee_count
  products_services := mergeField truthyList a.products_services b.products_services
  technologies_used := mergeField truthyList a.technologies_used b.technologies_used
  keywords := mergeField truthyList a.keywords b.keywords
  categories := mergeField truthyList a.categories b.categories
  regulatory_topics := mergeField truthyList a.regulatory_topics b.regulatory_topics

/-- Lines 91–95 of `company_scraper.py`: the status stamp.
`success` requires `profile_data.get("scrape_error")` to be falsy. -/
def deriveStatus (fs : FieldSet) (err : Option String) : String :=
  if truthyStr fs.description || truthyStr fs.industry then
    if truthyStr err then "partial" else "success"
  else "failed"

/-- `CompanyScraper.scrape_company` (lines 37–97).  The two extraction
outcomes are passed as parameters; each is consulted only when the
corresponding URL is present.  The intermediate triple is
(fields so far, `source_type`, `scrape_error`). -/
def scrape_company (company_name : String)
    (website_url wikipedia_url : Option String)
    (wikiOutcome webOutcome : Except String FieldSet) : CompanyProfile :=
  let r1 : FieldSet × Option String × Option String :=
    match wikipedia_url, wikiOutcome with
    | none, _ => ({}, none, none)
    | some _, .ok wd => (wd, some "wikipedia", none)
    | some _, .error e => ({}, none, some e)
  let r2 : FieldSet × Option String × Option String :=
    match website_url, webOutcome with
    | none, _ => r1
    | some _, .ok webData =>
      (mergeFieldSet r1.1 webData,
       if r1.2.1 = some "wikipedia" then some "combined" else some "website",
       r1.2.2)
    | some _, .error e =>
      (r1.1, r1.2.1, if truthyStr r1.2.2 then r1.2.2 else some e)
  { company_name := company_name
    website_url := website_url
    wikipedia_url := wikipedia_url
    fields := r2.1
    source_type := r2.2.1
    scrape_status := deriveStatus r2.1 r2.2.2
    scrape_error := r2.2.2 }

/-- `.ok` test on an extraction outcome. -/
def exceptOk : Except String FieldSet → Bool
  | .ok _ => true
  | .error _ => false

/-! ## Topic classifier (`_infer_regulatory_topics` and its fallback) -/

/-- `pat in hay` on character lists: Python's substring containment,
scanning for the leftmost position where `pat` is a prefix. -/
def strContainsAux (pat : List Char) : List Char → Bool
  | [] => pat.isEmpty
  | c :: rest => pat.isPrefixOf (c :: rest) || strContainsAux pat rest

/-- Python's `pat in hay` on strings. -/
def strContains (hay pat : String) : Bool := strContainsAux pat.data hay.data

/-- Python's `str.lower` (ASCII fragment), as a structurally recursive
map over the character list. -/
def lowerStr (s : String) : String := ⟨s.data.map Char.toLower⟩

/-- Strip leading and trailing whitespace from a character list. -/
def trimChars (l : List Char) : List Char :=
  ((l.dropWhile Char.isWhitespace).reverse.dropWhile Char.isWhitespace).reverse

/-- Python's `str.strip()` (ASCII fragment). -/
def trimStr (s : String) : String := ⟨trimChars s.data⟩

/-- Python's `str.split(sep)` for a one-character separator: leftmost,
non-overlapping splits; `''.split(sep) = ['']`. -/
def splitOnChar (sep : Char) : List Char → List (List Char)
  | [] => [[]]
  | c :: rest =>
    if c == sep then [] :: splitOnChar sep rest
    else
      match splitOnChar sep rest with
      | [] => [[c]]
      | h :: t => (c :: h) :: t

/-- Python's `str.split(': ')`: leftmost, non-overlapping splits on the
two-character separator `': '`. -/
def splitOnColonSpace : List Char → List (List Char)
  | [] => [[]]
  | ':' :: ' ' :: rest => [] :: splitOnColonSpace rest
  | c :: rest =>
    match splitOnColonSpace rest with
    | [] => [[c]]
    | h :: t => (c :: h) :: t

/-- Optional-string dict read with `''` default. -/
def getS (o : Option String) : String := o.getD ""

/-- Optional-list dict read with `[]` default. -/
def getL (o : Option (List String)) : List String := o.getD []

/-- Lines 393–401: the lower-cased composite text the fallback matcher
scans — `' '.join([description, industry, ' '.join(products_services),
' '.join(technologies_used), ' '.join(keywords)]).lower()`. -/
def combinedText (data : FieldSet) : String :=
  lowerStr (" ".intercalate
    [getS data.description,
     getS data.industry,
     " ".intercalate (getL data.products_services),
     " ".intercalate (getL data.technologies_used),
     " ".intercalate (getL data.keywords)])

/-- Lines 403–411: the `topic_mappings` dict, in insertion order,
with each `RegulatoryTopic` key replaced by its `.value` string. -/
def topicMappings : List (String × List String) :=
  [("AI Act", ["ai", "artificial intelligence", "machine learning", "ml",
               "algorithm", "neural", "deep learning"]),
   ("GDPR", ["data", "privacy", "gdpr", "personal", "information",
             "data protection", "consent"]),
   ("Cybersecurity", ["security", "cyber", "encryption", "authentication",
                      "firewall", "threat", "vulnerability"]),
   ("BaFin", ["finance", "banking", "payment", "fintech", "financial",
              "investment", "trading", "broker"]),
   ("AMLR", ["anti-money laundering", "aml", "amlr", "money laundering",
             "financial crime", "compliance", "transaction monitoring",
             "kyc", "know your customer", "identity verification",
             "customer verification", "onboarding", "due diligence"]),
   ("ESG", ["environmental", "social", "governance", "esg", "sustainability",
            "climate", "green", "carbon", "renewable"])]

/-- `_infer_regulatory_topics_fallback` (lines 381–417): a topic is
collected iff one of its keywords is a substring of the composite text;
the collected set is returned as a list, `None` if empty.  The list is
canonicalised to `topic_mappings` order (the Python set's iteration
order is unspecified). -/
def infer_regulatory_topics_fallback (data : FieldSet) : Option (List String) :=
  let text := combinedText data
  let topics :=
    (topicMappings.filter (fun p => p.2.any (fun kw => strContains text kw))).map Prod.fst
  if topics.isEmpty then none else some topics

/-- Lines 299–306: the labelled composite block of the primary tier.
A labelled field survives the filter iff the text between the first two
`': '` separators is non-empty (`field.split(': ')[1]`). -/
def companyInfo (data : FieldSet) : String :=
  let text_fields :=
    ["Description: " ++ getS data.description,
     "Industry: " ++ getS data.industry,
     "Products/Services: " ++ ", ".intercalate (getL data.products_services),
     "Technologies: " ++ ", ".intercalate (getL data.technologies_used),
     "Keywords: " ++ ", ".intercalate (getL data.keywords)]
  "\n".intercalate
    (text_fields.filter (fun f => !((splitOnColonSpace f.data).getD 1 []).isEmpty))

/-- Lines 365–375: parsing and vocabulary-filtering of the LLM response
text — `strip`, the literal `none` check, comma split, per-entry `strip`,
and the filter against `available_topics`; an empty surviving list
becomes `None`. -/
def parseGptTopics (content : String) : Option (List String) :=
  let result := trimStr content
  if lowerStr result == "none" then none
  else
    let valid := ((splitOnChar ',' result.data).map
        (fun t => trimStr ⟨t⟩)).filter
      (fun t => availableTopics.contains t)
    if valid.isEmpty then none else some valid

/-- `_infer_regulatory_topics` (lines 287–379).  `llm = none` models every
path that ends in the fallback (API key missing, request or parsing
raised); `llm = some content` models a completed request returning
`content`. -/
def infer_regulatory_topics (data : FieldSet) (llm : Option String) :
    Option (List String) :=
  if trimStr (companyInfo data) == "" then none
  else
    match llm with
    | none => infer_regulatory_topics_fallback data
    | some content => parseGptTopics content

/-! ## Founded-year extraction (`_scrape_wikipedia`, lines 131–135)

`re.search(r'\b(19|20)\d{2}\b', value)` followed by `int(...)` on the
match.  The scanner below finds the leftmost position at which the
regex matches; `tokAt` is the position-indexed specification of "a
4-digit token in the range 1900–2099 stands at index `i`". -/

/-- Python's `\d` on the ASCII fragment: code point between `'0'` (48)
and `'9'` (57).  Same function as `Char.isDigit`, phrased on `Char.toNat`
so the range arithmetic stays in `Nat`. -/
def isDig (c : Char) : Bool := 48 ≤ c.toNat && c.toNat ≤ 57

/-- Python's `\w` on the ASCII fragment. -/
def isWordChar (c : Char) : Bool := c.isAlphanum || c == '_'

/-- `\b` to the left of a match: start of string or a non-word char. -/
def boundaryBefore : Option Char → Bool
  | none => true
  | some c => !isWordChar c

/-- Numeric value of a digit char. -/
def digitVal (c : Char) : Nat := c.toNat - 48

/-- Attempt the regex `\b(19|20)\d{2}\b` at the head of `l`, with `prev`
the character immediately to the left (none at the string start). -/
def tok0 (prev : Option Char) : List Char → Option Nat
  | a :: b :: c :: d :: rest =>
    if boundaryBefore prev && ((a == '1' && b == '9') || (a == '2' && b == '0'))
        && isDig c && isDig d
        && !(match rest with | [] => false | e :: _ => isWordChar e) then
      some (1000 * digitVal a + 100 * digitVal b + 10 * digitVal c + digitVal d)
    else none
  | _ => none

/-- `re.search`: scan left to right, return the first position where the
pattern matches. -/
def findYearAux (prev : Option Char) : List Char → Option Nat
  | [] => none
  | c :: rest =>
    match tok0 prev (c :: rest) with
    | some y => some y
    | none => findYearAux (some c) rest

/-- Lines 131–135 applied to an infobox `founded` value text: the year
recorded in `data['founded_year']`, or `none` when the regex does not
match (no key written). -/
def foundedYearFromText (value : String) : Option Nat :=
  findYearAux none value.data

/-- Position `i` of `l` holds a char with `prev` virtually prepended:
the char to the left of position `i`. -/
def prevOf (prev : Option Char) (l : List Char) : Nat → Option Char
  | 0 => prev
  | j + 1 => l.get? j

/-- Specification predicate (as a partial function): the year token of
the regex standing at index `i` of `l`, if any. -/
def tokAt (prev : Option Char) (l : List Char) (i : Nat) : Option Nat :=
  tok0 (prevOf prev l i) (l.drop i)

/-! ## Helper lemmas -/

lemma mergeField_of_truthy (truthy : Option α → Bool) (a b : Option α)
    (h : truthy a = true) : mergeField truthy a b = a := by
  unfold mergeField
  rw [h]
  simp

lemma scrape_status_eq (cn : String) (wurl qurl : Option String)
    (wo webo : Except String FieldSet) :
    (scrape_company cn wurl qurl wo webo).scrape_status =
      deriveStatus (scrape_company cn wurl qurl wo webo).fields
        (scrape_company cn wurl qurl wo webo).scrape_error := rfl

lemma deriveStatus_cases (fs : FieldSet) (err : Option String) :
    deriveStatus fs err = "success" ∨ deriveStatus fs err = "partial" ∨
      deriveStatus fs err = "failed" := by
  unfold deriveStatus
  split
  · split
    · exact Or.inr (Or.inl rfl)
    · exact Or.inl rfl
  · exact Or.inr (Or.inr rfl)

lemma deriveStatus_iff (fs : FieldSet) (err : Option String) :
    (deriveStatus fs err = "failed" ↔
      truthyStr fs.description = false ∧ truthyStr fs.industry = false)
    ∧ (deriveStatus fs err = "success" ↔
      (truthyStr fs.description = true ∨ truthyStr fs.industry = true) ∧
        truthyStr err = false)
    ∧ (deriveStatus fs err = "partial" ↔
      (truthyStr fs.description = true ∨ truthyStr fs.industry = true) ∧
        truthyStr err = true) := by
  unfold deriveStatus
  cases hd : truthyStr fs.description <;> cases hi : truthyStr fs.industry <;>
    cases he : truthyStr err <;> simp

/-! ## Claims -/

/-- C4 (confirmed).  The Profile Assembler is a total function of its
inputs (the embedding is a plain `def`, so no exception can escape),
and on every input — any company name, any combination of
present/absent URLs, any extraction outcome — the returned profile's
`scrape_status` is one of the terminal values `success`, `partial`,
`failed`. -/
theorem assembler_total_terminal_status (cn : String) (wurl qurl : Option String)
    (wo webo : Except String FieldSet) :
    (scrape_company cn wurl qurl wo webo).scrape_status = "success" ∨
    (scrape_company cn wurl qurl wo webo).scrape_status = "partial" ∨
    (scrape_company cn wurl qurl wo webo).scrape_status = "failed" := by
  rw [scrape_status_eq]
  exact deriveStatus_cases _ _

/-- C1 (corrected).  `scrape_status` is determined by field presence and
the recorded error, with one amendment forced by the code's truthiness
test `profile_data.get("scrape_error")`: `failed` iff neither
`description` nor `industry` is (non-empty) present; `success` iff one
is present and no NON-EMPTY `scrape_error` was recorded; `partial` iff
one is present and a non-empty `scrape_error` was recorded.  (An error
recorded with empty message text counts as no error for the status.) -/
theorem status_state_machine (cn : String) (wurl qurl : Option String)
    (wo webo : Except String FieldSet) (p : CompanyProfile)
    (hp : p = scrape_company cn wurl qurl wo webo) :
    (p.scrape_status = "failed" ↔
      truthyStr p.fields.description = false ∧ truthyStr p.fields.industry = false)
    ∧ (p.scrape_status = "success" ↔
      (truthyStr p.fields.description = true ∨ truthyStr p.fields.industry = true) ∧
        truthyStr p.scrape_error = false)
    ∧ (p.scrape_status = "partial" ↔
      (truthyStr p.fields.description = true ∨ truthyStr p.fields.industry = true) ∧
        truthyStr p.scrape_error = true) := by
  subst hp
  rw [scrape_status_eq]
  exact deriveStatus_iff _ _

/-- C1 witness: a run with a populated description and no error is
stamped `success`, via the characterization. -/
theorem status_state_machine_witness :
    (scrape_company "ACME" none (some "https://en.wikipedia.org/wiki/ACME")
      (.ok { description := some "About ACME" }) (.ok {})).scrape_status = "success" :=
  ((status_state_machine "ACME" none (some "https://en.wikipedia.org/wiki/ACME")
      (.ok { description := some "About ACME" }) (.ok {}) _ rfl).2.1).mpr (by decide)

/-- C1 counterexample to the claim as stated: when the encyclopedia
extraction fails with an empty exception message and the website
extraction then succeeds with a description, an error IS recorded
(`scrape_error = some ""`) and a field is present, yet the status is
`success`, not `partial` as the claim requires. -/
theorem status_empty_error_counterexample :
    (scrape_company "ACME" (some "https://acme.example")
        (some "https://en.wikipedia.org/wiki/ACME")
        (.error "") (.ok { description := some "About ACME" })).scrape_error = some ""
    ∧ truthyStr (scrape_company "ACME" (some "https://acme.example")
        (some "https://en.wikipedia.org/wiki/ACME")
        (.error "") (.ok { description := some "About ACME" })).fields.description = true
    ∧ (scrape_company "ACME" (some "https://acme.example")
        (some "https://en.wikipedia.org/wiki/ACME")
        (.error "") (.ok { description := some "About ACME" })).scrape_status = "success" := by
  decide

/-- C2 (corrected).  `source_type` is `combined` iff both URLs were
supplied and BOTH extractions succeeded (not "at least one", as
claimed); otherwise it names the single source that succeeded, and it
is absent when no supplied source succeeded. -/
theorem source_type_characterization (cn : String) (wurl qurl : Option String)
    (wo webo : Except String FieldSet) (p : CompanyProfile)
    (hp : p = scrape_company cn wurl qurl wo webo) :
    (p.source_type = some "combined" ↔
      (qurl.isSome = true ∧ exceptOk wo = true) ∧
        (wurl.isSome = true ∧ exceptOk webo = true))
    ∧ (p.source_type = some "wikipedia" ↔
      (qurl.isSome = true ∧ exceptOk wo = true) ∧
        ¬(wurl.isSome = true ∧ exceptOk webo = true))
    ∧ (p.source_type = some "website" ↔
      (wurl.isSome = true ∧ exceptOk webo = true) ∧
        ¬(qurl.isSome = true ∧ exceptOk wo = true))
    ∧ (p.source_type = none ↔
      ¬(qurl.isSome = true ∧ exceptOk wo = true) ∧
        ¬(wurl.isSome = true ∧ exceptOk webo = true)) := by
  subst hp
  cases wurl <;> cases qurl <;> cases wo <;> cases webo <;>
    simp [scrape_company, exceptOk]

/-- C2 witness: both URLs supplied and both extractions succeeded gives
`source_type = combined`, via the characterization. -/
theorem source_type_characterization_witness :
    (scrape_company "ACME" (some "https://acme.example")
      (some "https://en.wikipedia.org/wiki/ACME")
      (.ok {}) (.ok {})).source_type = some "combined" :=
  (source_type_characterization "ACME" (some "https://acme.example")
      (some "https://en.wikipedia.org/wiki/ACME")
      (.ok {}) (.ok {}) _ rfl).1.mpr (by decide)

/-- C2 counterexample to the claim as stated: both URLs supplied, the
encyclopedia extraction succeeded (so "at least one of the two
extractions succeeded" holds) but the website extraction failed —
the code leaves `source_type = wikipedia`, not `combined`. -/
theorem source_type_counterexample :
    (scrape_company "ACME" (some "https://acme.example")
        (some "https://en.wikipedia.org/wiki/ACME")
        (.ok { industry := some "Robotics" }) (.error "connection refused")).source_type
      = some "wikipedia"
    ∧ (scrape_company "ACME" (some "https://acme.example")
        (some "https://en.wikipedia.org/wiki/ACME")
        (.ok { industry := some "Robotics" }) (.error "connection refused")).source_type
      ≠ some "combined" := by
  decide

/-- C5 (confirmed).  The merge is first-non-empty per field with the
encyclopedia result first: every field truthy in the encyclopedia
result survives unchanged into the merged profile, whatever the
website result holds for it. -/
theorem wiki_precedence_in_merge (cn wurl qurl : String) (wd webd : FieldSet)
    (p : CompanyProfile)
    (hp : p = scrape_company cn (some wurl) (some qurl) (.ok wd) (.ok webd)) :
    (truthyStr wd.description = true → p.fields.description = wd.description)
    ∧ (truthyStr wd.industry = true → p.fields.industry = wd.industry)
    ∧ (truthyNat wd.founded_year = true → p.fields.founded_year = wd.founded_year)
    ∧ (truthyStr wd.headquarters = true → p.fields.headquarters = wd.headquarters)
    ∧ (truthyStr wd.employee_count = true → p.fields.employee_count = wd.employee_count)
    ∧ (truthyList wd.products_services = true →
        p.fields.products_services = wd.products_services)
    ∧ (truthyList wd.technologies_used = true →
        p.fields.technologies_used = wd.technologies_used)
    ∧ (truthyList wd.keywords = true → p.fields.keywords = wd.keywords)
    ∧ (truthyList wd.categories = true → p.fields.categories = wd.categories)
    ∧ (truthyList wd.regulatory_topics = true →
        p.fields.regulatory_topics = wd.regulatory_topics) := by
  subst hp
  refine ⟨fun h => ?_, fun h => ?_, fun h => ?_, fun h => ?_, fun h => ?_,
    fun h => ?_, fun h => ?_, fun h => ?_, fun h => ?_, fun h => ?_⟩ <;>
    exact mergeField_of_truthy _ _ _ h

/-- C5 witness: an encyclopedia description and industry survive a
website result that supplies competing values for both. -/
theorem wiki_precedence_in_merge_witness :
    (scrape_company "ACME" (some "https://acme.example")
        (some "https://en.wikipedia.org/wiki/ACME")
        (.ok { description := some "Wiki text", industry := some "Robotics" })
        (.ok { description := some "Meta text", industry := some "Websites" })).fields.description
      = some "Wiki text" :=
  (wiki_precedence_in_merge "ACME" "https://acme.example"
      "https://en.wikipedia.org/wiki/ACME"
      { description := some "Wiki text", industry := some "Robotics" }
      { description := some "Meta text", industry := some "Websites" } _ rfl).1 (by decide)

/-- C6 (corrected).  When both extraction attempts error, `scrape_error`
holds the encyclopedia error message when that message is non-empty
(the usual case), and the website error message otherwise: the code's
guard `if not profile_data.get("scrape_error")` treats an already
recorded EMPTY message as absent, so only a non-empty first error is
never overwritten. -/
theorem first_error_wins (cn wurl qurl e1 e2 : String) (p : CompanyProfile)
    (hp : p = scrape_company cn (some wurl) (some qurl) (.error e1) (.error e2)) :
    p.scrape_error = some (if e1 = "" then e2 else e1) := by
  subst hp
  by_cases h : e1 = "" <;>
    simp [scrape_company, truthyStr, h]

/-- C6 witness: with two non-empty error messages the first (the
encyclopedia error) is the one kept. -/
theorem first_error_wins_witness :
    (scrape_company "ACME" (some "https://acme.example")
        (some "https://en.wikipedia.org/wiki/ACME")
        (.error "wiki down") (.error "site down")).scrape_error = some "wiki down" :=
  (first_error_wins "ACME" "https://acme.example"
      "https://en.wikipedia.org/wiki/ACME" "wiki down" "site down" _ rfl).trans (by decide)

/-- C6 counterexample to the claim as stated: the encyclopedia
extraction errors first with an empty message, then the website
extraction errors — the later error DOES overwrite the recorded
`scrape_error`, which ends up holding the website message, not the
first error's message. -/
theorem first_error_wins_counterexample :
    (scrape_company "ACME" (some "https://acme.example")
        (some "https://en.wikipedia.org/wiki/ACME")
        (.error "") (.error "connection refused")).scrape_error
      = some "connection refused"
    ∧ (scrape_company "ACME" (some "https://acme.example")
        (some "https://en.wikipedia.org/wiki/ACME")
        (.error "") (.error "connection refused")).scrape_error ≠ some "" := by
  decide

/-- C3 (corrected).  No classifier invocation happens after the field
merge: the final `regulatory_topics` is merged first-non-empty exactly
like every other field — the encyclopedia extractor's own
partial-view classification when it is non-empty, else the website
extractor's.  Cross-source evidence therefore cannot change the final
topic set (see the counterexample). -/
theorem merged_topics_no_reclassification (cn wurl qurl : String)
    (wd webd : FieldSet) (p : CompanyProfile)
    (hp : p = scrape_company cn (some wurl) (some qurl) (.ok wd) (.ok webd)) :
    p.fields.regulatory_topics =
      if truthyList wd.regulatory_topics then wd.regulatory_topics
      else if truthyList webd.regulatory_topics then webd.regulatory_topics
      else wd.regulatory_topics := by
  subst hp
  show mergeField truthyList wd.regulatory_topics webd.regulatory_topics = _
  unfold mergeField
  cases ha : truthyList wd.regulatory_topics <;>
    cases hb : truthyList webd.regulatory_topics <;> simp

/-- C3 witness: a non-empty encyclopedia classification is what the
final profile carries. -/
theorem merged_topics_no_reclassification_witness :
    (scrape_company "ACME" (some "https://acme.example")
        (some "https://en.wikipedia.org/wiki/ACME")
        (.ok { industry := some "Payments", regulatory_topics := some ["BaFin"] })
        (.ok { description := some "We safeguard customer data.",
               regulatory_topics := some ["GDPR"] })).fields.regulatory_topics
      = some ["BaFin"] :=
  (merged_topics_no_reclassification "ACME" "https://acme.example"
      "https://en.wikipedia.org/wiki/ACME"
      { industry := some "Payments", regulatory_topics := some ["BaFin"] }
      { description := some "We safeguard customer data.",
        regulatory_topics := some ["GDPR"] } _ rfl).trans (by decide)

/-- C3 counterexample to the claim as stated: in a run where each
extractor classified its own partial view with the deterministic
fallback tier, the classifier applied to the fully merged field set
would add `GDPR` (the website description contributes the keyword
`data`), but the assembled profile keeps the encyclopedia extractor's
own topic list `["BaFin"]` — no post-merge classification happens. -/
theorem merged_topics_counterexample :
    (scrape_company "ACME" (some "https://acme.example")
        (some "https://en.wikipedia.org/wiki/ACME")
        (.ok { industry := some "Payments",
               regulatory_topics :=
                 infer_regulatory_topics_fallback { industry := some "Payments" } })
        (.ok { description := some "We safeguard customer data.",
               regulatory_topics :=
                 infer_regulatory_topics_fallback
                   { description := some "We safeguard customer data." } })).fields.regulatory_topics
      = some ["BaFin"]
    ∧ infer_regulatory_topics_fallback
        (scrape_company "ACME" (some "https://acme.example")
          (some "https://en.wikipedia.org/wiki/ACME")
          (.ok { industry := some "Payments",
                 regulatory_topics :=
                   infer_regulatory_topics_fallback { industry := some "Payments" } })
          (.ok { description := some "We safeguard customer data.",
                 regulatory_topics :=
                   infer_regulatory_topics_fallback
                     { description := some "We safeguard customer data." } })).fields
      = some ["GDPR", "BaFin"] := by
  decide

/-- C8 (corrected).  On the field set `{industry: "Payments",
description: "We process card payments for merchants."}` the fallback
classifier yields exactly the topic set `{BaFin}` — not `{GDPR, BaFin}`
as claimed, since no GDPR trigger keyword (data, privacy, gdpr,
personal, information, consent) occurs in the composite text — and the
assembled profile with these fields and no error is stamped
`success`. -/
theorem example1_fallback_topics :
    infer_regulatory_topics_fallback
        { industry := some "Payments",
          description := some "We process card payments for merchants." } = some ["BaFin"]
    ∧ (scrape_company "ACME" none (some "https://en.wikipedia.org/wiki/ACME")
        (.ok { industry := some "Payments",
               description := some "We process card payments for merchants.",
               regulatory_topics :=
                 infer_regulatory_topics_fallback
                   { industry := some "Payments",
                     description := some "We process card payments for merchants." } })
        (.ok {})).scrape_status = "success" := by
  decide

/-- C8 counterexample to the claim as stated: `GDPR` is not in the
fallback classifier's output on the example field set. -/
theorem example1_counterexample :
    "GDPR" ∉ (infer_regulatory_topics_fallback
        { industry := some "Payments",
          description := some "We process card payments for merchants." }).getD []
    ∧ infer_regulatory_topics_fallback
        { industry := some "Payments",
          description := some "We process card payments for merchants." } ≠
      some ["GDPR", "BaFin"] := by
  decide

/-! Helper lemmas for the classifier claims. -/

lemma mappings_keys_valid : ∀ p ∈ topicMappings, p.1 ∈ availableTopics := by
  decide

lemma fallback_some_props (data : FieldSet) (l : List String)
    (h : infer_regulatory_topics_fallback data = some l) :
    l ≠ [] ∧ ∀ t ∈ l, t ∈ availableTopics := by
  simp only [infer_regulatory_topics_fallback] at h
  split at h
  · cases h
  · next hne =>
    injection h with h'
    subst h'
    refine ⟨?_, ?_⟩
    · intro hnil
      rw [hnil] at hne
      exact hne rfl
    · intro t ht
      obtain ⟨p, hp, rfl⟩ := List.mem_map.mp ht
      exact mappings_keys_valid p (List.mem_filter.mp hp).1

lemma infer_some_props (data : FieldSet) (llm : Option String) (l : List String)
    (h : infer_regulatory_topics data llm = some l) :
    l ≠ [] ∧ ∀ t ∈ l, t ∈ availableTopics := by
  simp only [infer_regulatory_topics] at h
  split at h
  · cases h
  · cases llm with
    | none => exact fallback_some_props _ _ h
    | some content =>
      simp only [parseGptTopics] at h
      split at h
      · cases h
      · split at h
        · cases h
        · next hne =>
          injection h with h'
          subst h'
          refine ⟨?_, ?_⟩
          · intro hnil
            rw [hnil] at hne
            exact hne rfl
          · intro t ht
            have hc := (List.mem_filter.mp ht).2
            simpa using hc

/-- C10 (confirmed).  Neither classifier tier can return the empty
topic list: on every input, the fallback tier and the full classifier
(any LLM response, or none) return either `none` or a non-empty list
of topics drawn from the closed vocabulary, so the empty set — which
the data model distinguishes from null — is unreachable as classifier
output. -/
theorem classifier_never_empty :
    (∀ (data : FieldSet) (l : List String),
        infer_regulatory_topics_fallback data = some l →
          l ≠ [] ∧ ∀ t ∈ l, t ∈ availableTopics)
    ∧ (∀ (data : FieldSet) (llm : Option String) (l : List String),
        infer_regulatory_topics data llm = some l →
          l ≠ [] ∧ ∀ t ∈ l, t ∈ availableTopics) :=
  ⟨fallback_some_props, infer_some_props⟩

/-- C10 witness: the fallback output on a field set whose description
is the single keyword `data` is the non-empty vocabulary subset
`["GDPR"]`. -/
theorem classifier_never_empty_witness :
    infer_regulatory_topics_fallback { description := some "data" } = some ["GDPR"]
    ∧ (["GDPR"] ≠ [] ∧ ∀ t ∈ ["GDPR"], t ∈ availableTopics) :=
  ⟨by decide,
   classifier_never_empty.1 { description := some "data" } ["GDPR"] (by decide)⟩

/-- C7 (corrected).  The fallback classifier includes a topic iff one
of that topic's trigger keywords IN THE CODE's `topic_mappings` table
occurs as a substring of the lower-cased composite text, and returns
null iff no keyword of any row matches.  The claim's AMLR trigger set
(taken from the spec's table) is however incomplete: the code
additionally triggers AMLR on `amlr`, `financial crime`, `compliance`,
`transaction monitoring` and `know your customer` (see the
counterexample). -/
theorem fallback_keyword_iff (data : FieldSet) (t : String) :
    (t ∈ (infer_regulatory_topics_fallback data).getD []
      ↔ ∃ p, p ∈ topicMappings ∧ p.1 = t
          ∧ ∃ kw, kw ∈ p.2 ∧ strContains (combinedText data) kw = true)
    ∧ (infer_regulatory_topics_fallback data = none
      ↔ ∀ p, p ∈ topicMappings → ∀ kw, kw ∈ p.2
          → strContains (combinedText data) kw = false) := by
  have hmem : ∀ s : String,
      (s ∈ (topicMappings.filter
          (fun p => p.2.any (fun kw => strContains (combinedText data) kw))).map Prod.fst)
        ↔ ∃ p, p ∈ topicMappings ∧ p.1 = s
            ∧ ∃ kw, kw ∈ p.2 ∧ strContains (combinedText data) kw = true := by
    intro s
    simp only [List.mem_map, List.mem_filter, List.any_eq_true]
    constructor
    · rintro ⟨p, ⟨hp, kw, hkw, hc⟩, rfl⟩
      exact ⟨p, hp, rfl, kw, hkw, hc⟩
    · rintro ⟨p, hp, rfl, kw, hkw, hc⟩
      exact ⟨p, ⟨hp, kw, hkw, hc⟩, rfl⟩
  by_cases he : ((topicMappings.filter
      (fun p => p.2.any (fun kw => strContains (combinedText data) kw))).map Prod.fst).isEmpty = true
  · have hnil : (topicMappings.filter
        (fun p => p.2.any (fun kw => strContains (combinedText data) kw))).map Prod.fst = [] := by
      simpa [List.isEmpty_iff] using he
    have hfb : infer_regulatory_topics_fallback data = none := by
      simp only [infer_regulatory_topics_fallback]
      rw [if_pos he]
    refine ⟨?_, ?_⟩
    · rw [hfb]
      simp only [Option.getD_none]
      constructor
      · intro h
        exact absurd h (List.not_mem_nil t)
      · intro hx
        have := (hmem t).mpr hx
        rw [hnil] at this
        exact absurd this (List.not_mem_nil t)
    · rw [hfb]
      constructor
      · intro _ p hp kw hkw
        by_contra hc
        have hc' : strContains (combinedText data) kw = true := by
          cases h' : strContains (combinedText data) kw
          · exact absurd h' hc
          · rfl
        have : p.1 ∈ (topicMappings.filter
            (fun p => p.2.any (fun kw => strContains (combinedText data) kw))).map Prod.fst :=
          (hmem p.1).mpr ⟨p, hp, rfl, kw, hkw, hc'⟩
        rw [hnil] at this
        exact absurd this (List.not_mem_nil _)
      · intro _
        rfl
  · have hfb : infer_regulatory_topics_fallback data =
        some ((topicMappings.filter
          (fun p => p.2.any (fun kw => strContains (combinedText data) kw))).map Prod.fst) := by
      simp only [infer_regulatory_topics_fallback]
      rw [if_neg he]
    refine ⟨?_, ?_⟩
    · rw [hfb]
      simpa using hmem t
    · rw [hfb]
      constructor
      · intro h
        cases h
      · intro hall
        exfalso
        apply he
        rw [List.isEmpty_iff, List.map_eq_nil_iff, List.filter_eq_nil_iff]
        intro p hp
        simp only [List.any_eq_true, not_exists, not_and]
        intro kw hkw
        rw [hall p hp kw hkw]
        exact Bool.false_ne_true

/-- C7 witness: `Cybersecurity` is included for a description holding
the keyword `security`, via the characterization. -/
theorem fallback_keyword_iff_witness :
    ∃ p, p ∈ topicMappings ∧ p.1 = "Cybersecurity"
      ∧ ∃ kw, kw ∈ p.2
          ∧ strContains (combinedText { description := some "Network security tools" }) kw = true :=
  (fallback_keyword_iff { description := some "Network security tools" } "Cybersecurity").1.mp
    (by decide)

/-- C7 counterexample to the claim as stated: on a description holding
only the word `compliance`, the fallback classifier DOES include AMLR,
yet none of the AMLR trigger keywords of the spec's table
(anti-money laundering, aml, money laundering, kyc, due diligence,
onboarding, identity verification, customer verification) occurs in
the composite text. -/
theorem fallback_keyword_counterexample :
    infer_regulatory_topics_fallback { description := some "compliance" } = some ["AMLR"]
    ∧ (["anti-money laundering", "aml", "money laundering", "kyc", "due diligence",
        "onboarding", "identity verification", "customer verification"].all
        (fun kw => !(strContains (combinedText { description := some "compliance" }) kw))) = true := by
  decide

/-! Helper lemmas for the founded-year claim: the scanner
`findYearAux` finds exactly the leftmost position where the
position-indexed token specification `tokAt` holds. -/

lemma tokAt_zero (prev : Option Char) (l : List Char) :
    tokAt prev l 0 = tok0 prev l := rfl

lemma tokAt_nil (prev : Option Char) (i : Nat) : tokAt prev [] i = none := by
  cases i <;> rfl

lemma tokAt_cons_succ (prev : Option Char) (c : Char) (rest : List Char) (i : Nat) :
    tokAt prev (c :: rest) (i + 1) = tokAt (some c) rest i := by
  have h1 : prevOf prev (c :: rest) (i + 1) = prevOf (some c) rest i := by
    cases i <;> rfl
  show tok0 (prevOf prev (c :: rest) (i + 1)) ((c :: rest).drop (i + 1)) = _
  rw [h1]
  rfl

lemma findYearAux_none_iff (l : List Char) : ∀ prev,
    findYearAux prev l = none ↔ ∀ i, tokAt prev l i = none := by
  induction l with
  | nil =>
    intro prev
    constructor
    · intro _ i
      exact tokAt_nil prev i
    · intro _
      rfl
  | cons c rest ih =>
    intro prev
    cases h0 : tok0 prev (c :: rest) with
    | some y0 =>
      have hf : findYearAux prev (c :: rest) = some y0 := by
        simp [findYearAux, h0]
      rw [hf]
      constructor
      · intro h
        cases h
      · intro hall
        have h1 := hall 0
        rw [tokAt_zero, h0] at h1
        cases h1
    | none =>
      have hf : findYearAux prev (c :: rest) = findYearAux (some c) rest := by
        simp [findYearAux, h0]
      rw [hf, ih (some c)]
      constructor
      · intro hall i
        cases i with
        | zero =>
          rw [tokAt_zero]
          exact h0
        | succ n =>
          rw [tokAt_cons_succ]
          exact hall n
      · intro hall i
        have h1 := hall (i + 1)
        rw [tokAt_cons_succ] at h1
        exact h1

lemma findYearAux_some_iff (l : List Char) : ∀ prev y,
    findYearAux prev l = some y ↔
      ∃ i, tokAt prev l i = some y ∧ ∀ j, j < i → tokAt prev l j = none := by
  induction l with
  | nil =>
    intro prev y
    constructor
    · intro h
      cases h
    · rintro ⟨i, hi, -⟩
      rw [tokAt_nil] at hi
      cases hi
  | cons c rest ih =>
    intro prev y
    cases h0 : tok0 prev (c :: rest) with
    | some y0 =>
      have hf : findYearAux prev (c :: rest) = some y0 := by
        simp [findYearAux, h0]
      rw [hf]
      constructor
      · intro h
        injection h with h'
        subst h'
        refine ⟨0, ?_, fun j hj => absurd hj (Nat.not_lt_zero j)⟩
        rw [tokAt_zero]
        exact h0
      · rintro ⟨i, hi, hmin⟩
        cases i with
        | zero =>
          rw [tokAt_zero, h0] at hi
          exact hi
        | succ n =>
          have h1 := hmin 0 (Nat.succ_pos n)
          rw [tokAt_zero, h0] at h1
          cases h1
    | none =>
      have hf : findYearAux prev (c :: rest) = findYearAux (some c) rest := by
        simp [findYearAux, h0]
      rw [hf, ih (some c) y]
      constructor
      · rintro ⟨i, hi, hmin⟩
        refine ⟨i + 1, ?_, ?_⟩
        · rw [tokAt_cons_succ]
          exact hi
        · intro j hj
          cases j with
          | zero =>
            rw [tokAt_zero]
            exact h0
          | succ m =>
            rw [tokAt_cons_succ]
            exact hmin m (Nat.lt_of_succ_lt_succ hj)
      · rintro ⟨i, hi, hmin⟩
        cases i with
        | zero =>
          rw [tokAt_zero, h0] at hi
          cases hi
        | succ n =>
          rw [tokAt_cons_succ] at hi
          refine ⟨n, hi, ?_⟩
          intro j hj
          have h1 := hmin (j + 1) (Nat.succ_lt_succ hj)
          rw [tokAt_cons_succ] at h1
          exact h1

lemma isDig_bounds (c : Char) (h : isDig c = true) :
    48 ≤ c.toNat ∧ c.toNat ≤ 57 := by
  simpa [isDig] using h

lemma tok0_range (prev : Option Char) (l : List Char) (y : Nat)
    (h : tok0 prev l = some y) : 1900 ≤ y ∧ y ≤ 2099 := by
  match l with
  | [] => simp [tok0] at h
  | [_] => simp [tok0] at h
  | [_, _] => simp [tok0] at h
  | [_, _, _] => simp [tok0] at h
  | a :: b :: c :: d :: rest =>
    simp only [tok0] at h
    split at h
    · next hcond =>
      injection h with h'
      subst h'
      simp only [Bool.and_eq_true, Bool.or_eq_true, beq_iff_eq] at hcond
      obtain ⟨⟨⟨⟨-, hab⟩, hc⟩, hd⟩, -⟩ := hcond
      have hc' := isDig_bounds c hc
      have hd' := isDig_bounds d hd
      have t1 : ('1' : Char).toNat = 49 := rfl
      have t9 : ('9' : Char).toNat = 57 := rfl
      have t2 : ('2' : Char).toNat = 50 := rfl
      have t0 : ('0' : Char).toNat = 48 := rfl
      rcases hab with ⟨ha, hb⟩ | ⟨ha, hb⟩ <;> subst ha <;> subst hb <;>
        simp only [digitVal, t1, t9, t2, t0] <;> omega
    · cases h

/-- C9 (confirmed).  `founded_year` is recorded exactly when the value
text holds a 4-digit token in the range 1900–2099 (four digits starting
`19` or `20`, delimited by non-word characters or the text's ends,
matching `\b(19|20)\d{2}\b`), and the recorded year is the value of the
FIRST such token; no year is recorded when no such token occurs.  On
"Founded in 1998, relocated in 2010" the recorded year is 1998. -/
theorem founded_year_first_token :
    (∀ (s : String) (y : Nat),
        foundedYearFromText s = some y ↔
          ∃ i, tokAt none s.data i = some y ∧ ∀ j, j < i → tokAt none s.data j = none)
    ∧ (∀ s : String,
        foundedYearFromText s = none ↔ ∀ i, tokAt none s.data i = none)
    ∧ (∀ (prev : Option Char) (l : List Char) (i y : Nat),
        tokAt prev l i = some y → 1900 ≤ y ∧ y ≤ 2099)
    ∧ foundedYearFromText "Founded in 1998, relocated in 2010" = some 1998 :=
  ⟨fun s y => findYearAux_some_iff s.data none y,
   fun s => findYearAux_none_iff s.data none,
   fun prev l i y h => tok0_range (prevOf prev l i) (l.drop i) y h,
   by decide⟩

/-- C9 witness: on the spec's example text a first year token with
value 1998 exists, obtained through the characterization. -/
theorem founded_year_first_token_witness :
    ∃ i, tokAt none "Founded in 1998, relocated in 2010".data i = some 1998
      ∧ ∀ j, j < i → tokAt none "Founded in 1998, relocated in 2010".data j = none :=
  (founded_year_first_token.1 "Founded in 1998, relocated in 2010" 1998).mp (by decide)

end RegEU
